import Mathlib

/-!
Shallow embedding of the `study_actors` subsystem of the repository
(`src/native/hub/src/study_actors/`): the network manager's per-domain
admission control, the auth actor's session map, the data manager's
read-through cache over the cache and storage actors, and the supervisor's
restart policy.  Each message handler is translated to a pure Lean function
over an explicit state; behaviour that depends on the outside world (the
current clock reading, the result of building an HTTP client, the outcome of
a transport attempt, the response of a dependency actor behind an address) is
passed in as an explicit argument.  HashMap fields are modelled as functions
from keys to optional values, matching lookup/insert/remove semantics.
-/

namespace StudyActors

/-! ## Network manager (actors/network.rs) -/

/-- Modulus of the `u32` counters stored in the connection pool. -/
def UINT32_MOD : Nat := 4294967296

/-- Mirror of `NetworkRequest` (network.rs lines 18-26).  The body and the
JSON payload are kept abstract as byte lists and strings; only `url` matters
to the admission-control logic. -/
structure NetworkRequest where
  url : String
  method : String
  headers : List (String × String)
  body : Option (List Nat)
  timeout_ms : Option Nat
  json : Option String
deriving DecidableEq, Repr

/-- Mirror of `NetworkResponse` (network.rs lines 70-76): status code,
headers, body bytes, optional error string. -/
structure NetworkResponse where
  status : Nat
  headers : List (String × String)
  body : List Nat
  error : Option String
deriving DecidableEq, Repr

/-- Mirror of `NetworkResponse::is_success` (network.rs lines 79-81), with
HTTP success statuses being the 2xx range. -/
def NetworkResponse.is_success (r : NetworkResponse) : Bool :=
  (200 ≤ r.status && r.status < 300) && r.error == none

/-- State of `NetworkManagerActor` (network.rs lines 93-97): the per-domain
in-flight counter map and the ceiling.  The `JoinSet` of owned background
tasks has no bearing on the handler logic and is omitted. -/
structure NetworkManagerActor where
  connection_pool : String → Option Nat
  max_connections : Nat

/-- Mirror of `NetworkManagerActor::new` (network.rs lines 102-110): empty
pool, ceiling 10. -/
def NetworkManagerActor.new : NetworkManagerActor :=
  { connection_pool := fun _ => none, max_connections := 10 }

/-- Strip `sep` from the front of `s`, returning the remainder when `sep` is
a prefix of `s`.  Building block for the model of Rust's `str::split`. -/
def dropPrefixChars : List Char → List Char → Option (List Char)
  | [], s => some s
  | _ :: _, [] => none
  | a :: as, b :: bs => if a = b then dropPrefixChars as bs else none

/-- Fuel-indexed worker for `splitOnChars`.  Each step either consumes one
character into the accumulator or cuts a separator occurrence; with fuel at
least the length of the input (and a nonempty separator) the fuel never runs
out before the input does. -/
def splitOnCharsGo (sep : List Char) : Nat → List Char → List Char → List (List Char)
  | _, [], acc => [acc.reverse]
  | 0, s, acc => [acc.reverse ++ s]
  | n + 1, c :: rest, acc =>
    match dropPrefixChars sep (c :: rest) with
    | some remainder => acc.reverse :: splitOnCharsGo sep n remainder []
    | none => splitOnCharsGo sep n rest (c :: acc)

/-- Model of Rust's `str::split` at a nonempty string pattern: the list of
segments of `s` between non-overlapping left-to-right occurrences of `sep`
(always nonempty; leading, trailing and adjacent occurrences contribute empty
segments, as in Rust). -/
def splitOnChars (sep s : List Char) : List (List Char) :=
  splitOnCharsGo sep s.length s []

/-- Mirror of `NetworkManagerActor::extract_domain` (network.rs lines
130-139): the segment at index 1 of the URL split on the scheme separator
(the whole URL when there is no such segment), then the part of that segment
before the first slash. -/
def extract_domain (url : String) : String :=
  let parts := (splitOnChars "://".data url.data).map String.mk
  let afterScheme := (parts.get? 1).getD url
  ((((splitOnChars "/".data afterScheme.data).map String.mk).head?).getD url)

/-- Outcome of the one `request_builder.send().await` transport attempt
(network.rs lines 196-223): either a response arrived, carrying a status, the
headers, and the result of reading the body bytes, or the request failed. -/
inductive SendOutcome where
  | success (status : Nat) (headers : List (String × String))
      (bodyResult : Except String (List Nat))
  | failure (err : String)
deriving Repr

/-- The environment a single `Handler<NetworkRequest>::handle` call runs in:
the result of `reqwest::Client::build` and the transport outcome (consulted
only when the build succeeds and the request is admitted). -/
structure NetworkEnv where
  buildResult : Except String Unit
  sendOutcome : SendOutcome
deriving Repr

/-- What one `Handler<NetworkRequest>::handle` call produces: its returned
result, the post-state of the actor, and whether the transport attempt
(the `send().await`) was reached. -/
structure NetworkHandleOutput where
  result : Except String NetworkResponse
  state : NetworkManagerActor
  transportAttempted : Bool

/-- Mirror of `Handler<NetworkRequest> for NetworkManagerActor` (network.rs
lines 146-231).  The entry API inserts the (wrapped) incremented counter
before the ceiling check; on rejection the counter is put back.  On a client
build failure the original code returns early with the question-mark
operator, so the counter keeps the incremented value.  On every transport
outcome the handler builds a NetworkResponse and finally decrements the
counter with a saturating subtraction. -/
def NetworkManagerActor.handleNetworkRequest (s : NetworkManagerActor)
    (msg : NetworkRequest) (env : NetworkEnv) : NetworkHandleOutput :=
  let domain := extract_domain msg.url
  let count := (s.connection_pool domain).getD 0
  let incremented := (count + 1) % UINT32_MOD
  if incremented > s.max_connections then
    { result := .error ("Too many connections to domain: " ++ domain)
      state := { s with connection_pool :=
        fun d => if d = domain then some (incremented - 1) else s.connection_pool d }
      transportAttempted := false }
  else
    match env.buildResult with
    | .error e =>
      { result := .error ("Network error: Failed to build HTTP client: " ++ e)
        state := { s with connection_pool :=
          fun d => if d = domain then some incremented else s.connection_pool d }
        transportAttempted := false }
    | .ok _ =>
      let resp : NetworkResponse :=
        match env.sendOutcome with
        | .success status headers (.ok bytes) =>
          { status := status, headers := headers, body := bytes, error := none }
        | .success status headers (.error e) =>
          { status := status, headers := headers, body := []
            error := some ("Failed to read response body: " ++ e) }
        | .failure e =>
          { status := 500, headers := [], body := []
            error := some ("Request failed: " ++ e) }
      { result := .ok resp
        state := { s with connection_pool :=
          fun d => if d = domain then some (incremented - 1) else s.connection_pool d }
        transportAttempted := true }

/-- Sequential processing of a list of network requests by the actor's
mailbox loop: each handler call runs to completion before the next. -/
def processRequests (s : NetworkManagerActor) :
    List (NetworkRequest × NetworkEnv) → NetworkManagerActor
  | [] => s
  | (msg, env) :: rest =>
    processRequests (s.handleNetworkRequest msg env).state rest

/-! ## Auth actor (actors/auth.rs) -/

/-- Mirror of the `Login` message (messages/auth_messages.rs). -/
structure Login where
  username : String
  password : String
deriving DecidableEq, Repr

/-- Mirror of `AuthResult` (messages/auth_messages.rs). -/
structure AuthResult where
  user_id : String
  token : String
  expires_at : Nat
deriving DecidableEq, Repr

/-- Mirror of `AuthSession` (auth.rs lines 20-24). -/
structure AuthSession where
  user_id : String
  token : String
  expires_at : Nat
deriving DecidableEq, Repr

/-- State of `AuthActor` (auth.rs lines 15-18): the token-keyed session map.
The `JoinSet` holding the expiry-sweep task is omitted; the sweep itself is
`AuthActor.checkExpiredTokens` below. -/
structure AuthActor where
  active_sessions : String → Option AuthSession

/-- Fresh auth actor with no sessions (auth.rs lines 29-39). -/
def AuthActor.new : AuthActor := { active_sessions := fun _ => none }

/-- Interval of the expiry-sweep loop in seconds, from
`Duration::from_secs(60)` in `AuthActor::check_token_expiry`
(auth.rs line 42). -/
def sweepIntervalSecs : Nat := 60

/-- Mirror of `AuthActor::generate_token` (auth.rs lines 49-52): formats the
user id and the current unix timestamp. -/
def generate_token (user_id : String) (now : Nat) : String :=
  "token_" ++ user_id ++ "_" ++ toString now

/-- Mirror of `Handler<Login> for AuthActor` (auth.rs lines 89-127).  `now`
is the clock reading `get_current_timestamp` returns during the call.  On the
demo credentials a session expiring 3600 seconds later is inserted under the
generated token; otherwise the state is untouched and an error returned.
The emitted AuthStateChanged UI signal carries no actor state and is not
modelled. -/
def AuthActor.handleLogin (now : Nat) (msg : Login) (s : AuthActor) :
    Except String AuthResult × AuthActor :=
  if msg.username = "demo" ∧ msg.password = "password" then
    let user_id := "user_1"
    let token := generate_token user_id now
    let expires_at := now + 3600
    let auth_result : AuthResult :=
      { user_id := user_id, token := token, expires_at := expires_at }
    (.ok auth_result,
      { active_sessions := fun t =>
          if t = token then
            some { user_id := user_id, token := token, expires_at := expires_at }
          else s.active_sessions t })
  else
    (.error "Invalid username or password", s)

/-- Mirror of `Handler<VerifyToken> for AuthActor` (auth.rs lines 150-164):
a present session verifies iff its expiry is still in the future. -/
def AuthActor.handleVerifyToken (now : Nat) (token : String) (s : AuthActor) :
    Except String String :=
  match s.active_sessions token with
  | some session =>
    if session.expires_at > now then .ok session.user_id
    else .error "Token expired"
  | none => .error "Invalid token"

/-- Mirror of `Notifiable<CheckExpiredTokens> for AuthActor` (auth.rs lines
63-86): collect every token with expiry strictly before the current time and
remove those sessions from the map.  The net state effect is keeping exactly
the sessions with expiry at or after the sweep time. -/
def AuthActor.checkExpiredTokens (now : Nat) (s : AuthActor) : AuthActor :=
  { active_sessions := fun t =>
      match s.active_sessions t with
      | some session =>
        if session.expires_at < now then none else some session
      | none => none }

/-! ## Cache, storage and data manager actors (actors/data.rs) -/

/-- Mirror of the `FetchData` message (messages/data_messages.rs). -/
structure FetchData where
  key : String
  user_id : Option String
deriving DecidableEq, Repr

/-- Mirror of the `StoreData` message (messages/data_messages.rs). -/
structure StoreData where
  key : String
  data : List Nat
  user_id : Option String
  ttl : Option Nat
deriving DecidableEq, Repr

/-- Mirror of the `CacheData` message (messages/data_messages.rs). -/
structure CacheData where
  key : String
  data : List Nat
  ttl : Option Nat
deriving DecidableEq, Repr

/-- Mirror of `CacheEntry` (data.rs lines 259-262). -/
structure CacheEntry where
  data : List Nat
  expires_at : Option Nat
deriving DecidableEq, Repr

/-- State of `CacheActor` (data.rs lines 254-257): the key-to-entry map.
The stubbed cleanup task (declared but never removing entries) is omitted. -/
structure CacheActor where
  cache : String → Option CacheEntry

/-- Fresh cache actor with an empty map (data.rs lines 267-278). -/
def CacheActor.new : CacheActor := { cache := fun _ => none }

/-- Mirror of `Handler<FetchData> for CacheActor` (data.rs lines 295-313):
a present entry with an absolute expiry strictly before the current time is
removed and reported expired; otherwise the data is returned; an absent key
is a cache miss. -/
def CacheActor.handleFetchData (now : Nat) (msg : FetchData) (s : CacheActor) :
    Except String (List Nat) × CacheActor :=
  match s.cache msg.key with
  | some entry =>
    match entry.expires_at with
    | some e =>
      if e < now then
        (.error "Cache entry expired",
          { cache := fun k => if k = msg.key then none else s.cache k })
      else (.ok entry.data, s)
    | none => (.ok entry.data, s)
  | none => (.error "Cache miss", s)

/-- Mirror of `Handler<CacheData> for CacheActor` (data.rs lines 316-332):
insert the entry, with absolute expiry current time plus TTL when a TTL is
given. -/
def CacheActor.handleCacheData (now : Nat) (msg : CacheData) (s : CacheActor) :
    Except String Unit × CacheActor :=
  let expires_at := msg.ttl.map (fun ttl => now + ttl)
  (.ok (),
    { cache := fun k =>
        if k = msg.key then some { data := msg.data, expires_at := expires_at }
        else s.cache k })

/-- Mirror of `Handler<FetchData> for StorageActor` (data.rs lines 351-358):
the storage backend is an unimplemented stub and every fetch fails.  The
actor holds no data state. -/
def StorageActor.handleFetchData (_msg : FetchData) : Except String (List Nat) :=
  .error "Storage implementation not available"

/-- Mirror of `Handler<StoreData> for StorageActor` (data.rs lines 361-373):
the store is accepted with Ok but nothing is persisted. -/
def StorageActor.handleStoreData (_msg : StoreData) : Except String Unit :=
  .ok ()

/-- Result of an `Address::send` call as the data manager sees it: the outer
layer is the mailbox send itself (which fails when the target actor is gone),
the inner layer the handler's typed result. -/
def SendResult (α : Type) : Type := Except String (Except String α)

/-- The only shape the data manager treats as a hit: both layers Ok
(the `if let Ok(Ok(data))` pattern in data.rs lines 69 and 77). -/
def sendHit {α : Type} : SendResult α → Option α
  | .ok (.ok a) => some a
  | _ => none

/-- One dependency interaction the data manager performs on an address it
holds: fetching from the cache, fetching from storage, storing to storage, or
writing an entry into the cache. -/
inductive DepOp where
  | cacheFetch (msg : FetchData)
  | storageFetch (msg : FetchData)
  | storageStore (msg : StoreData)
  | cacheStore (msg : CacheData)
deriving DecidableEq, Repr

/-- Mirror of the control flow of `Handler<FetchData> for DataManagerActor`
(data.rs lines 62-96), abstracted over the replies of the cache and storage
addresses it sends to; the returned list records the dependency messages in
the order they are sent.  Cache first; only on a non-hit is storage asked;
on a storage hit the data is written back to the cache with TTL 3600 before
being returned; otherwise the fetch fails. -/
def dataManagerFetchAlgo (msg : FetchData) (cacheResp storageResp : SendResult (List Nat)) :
    Except String (List Nat) × List DepOp :=
  match sendHit cacheResp with
  | some data => (.ok data, [.cacheFetch msg])
  | none =>
    match sendHit storageResp with
    | some data =>
      (.ok data,
        [.cacheFetch msg, .storageFetch msg,
         .cacheStore { key := msg.key, data := data, ttl := some 3600 }])
    | none => (.error "Data not found", [.cacheFetch msg, .storageFetch msg])

/-- Mirror of the control flow of `Handler<StoreData> for DataManagerActor`
(data.rs lines 99-118), abstracted over the replies of the storage and cache
addresses.  The storage write goes first and either layer of its failure is
propagated by the double question mark without any cache write; on success
the entry is written to the cache and its reply is discarded. -/
def dataManagerStoreAlgo (msg : StoreData) (storageResp : SendResult Unit)
    (cacheResp : SendResult Unit) : Except String Unit × List DepOp :=
  match storageResp with
  | .error e => (.error e, [.storageStore msg])
  | .ok (.error e) => (.error e, [.storageStore msg])
  | .ok (.ok _) =>
    let _ := cacheResp
    (.ok (), [.storageStore msg,
      .cacheStore { key := msg.key, data := msg.data, ttl := msg.ttl }])

/-- `Handler<FetchData> for DataManagerActor` (data.rs lines 62-96) composed
with the live cache and storage actors the data manager spawned (both sends
succeed at the mailbox layer).  The cache actor's state threads through:
an expired entry is removed by the cache fetch, and a storage hit would be
written back with TTL 3600. -/
def DataManagerActor.handleFetchData (now : Nat) (msg : FetchData)
    (cache : CacheActor) : Except String (List Nat) × CacheActor :=
  let fetched := CacheActor.handleFetchData now msg cache
  match fetched.1 with
  | .ok data => (.ok data, fetched.2)
  | .error _ =>
    match StorageActor.handleFetchData msg with
    | .ok data =>
      let cached := CacheActor.handleCacheData now
        { key := msg.key, data := data, ttl := some 3600 } fetched.2
      (.ok data, cached.2)
    | .error _ => (.error "Data not found", fetched.2)

/-- `Handler<StoreData> for DataManagerActor` (data.rs lines 99-118) composed
with the live storage and cache actors: storage first (always Ok in the
stub), then the cache write with the message's TTL. -/
def DataManagerActor.handleStoreData (now : Nat) (msg : StoreData)
    (cache : CacheActor) : Except String Unit × CacheActor :=
  match StorageActor.handleStoreData msg with
  | .error e => (.error e, cache)
  | .ok _ =>
    let cached := CacheActor.handleCacheData now
      { key := msg.key, data := msg.data, ttl := msg.ttl } cache
    (.ok (), cached.2)

/-! ## Supervisor (actors/supervisor.rs) -/

/-- Mirror of `ActorType` (supervisor.rs lines 20-25). -/
inductive ActorType where
  | auth
  | user
  | data
  | network
deriving DecidableEq, Repr

/-- The address-holding fields of `AppSupervisor` (supervisor.rs lines
35-40); addresses are modelled as numeric identifiers of spawned actor
instances. -/
structure AppSupervisor where
  user_manager : Nat
  data_manager : Nat
  network_manager : Nat
deriving DecidableEq, Repr

/-- The dependency field of `DataManagerActor` (data.rs line 28) that the
supervisor rewires on recovery: the network manager address the data manager
currently holds. -/
structure DataManagerRefs where
  network_manager : Nat
deriving DecidableEq, Repr

/-- Mirror of `Notifiable<UpdateNetworkDependency> for DataManagerActor`
(data.rs lines 150-155): the held address is overwritten with the one in the
message. -/
def updateNetworkDependency (addr : Nat) (_refs : DataManagerRefs) :
    DataManagerRefs :=
  { network_manager := addr }

/-- The part of the actor tree `handle_actor_failure` touches: the
supervisor's own fields and the dependency refs of the data manager the
supervisor currently points at. -/
structure SupervisedSystem where
  supervisor : AppSupervisor
  dataManagerRefs : DataManagerRefs
deriving DecidableEq, Repr

/-- Mirror of `AppSupervisor::handle_actor_failure` (supervisor.rs lines
93-141).  `freshAddr` is the address of the context spawned for the branch's
new actor.  Network: spawn, overwrite the supervisor field, notify the data
manager with UpdateNetworkDependency.  Data: spawn a new data manager seeded
with the supervisor's current network address and overwrite the supervisor
field.  User: spawn and overwrite the supervisor field.  Auth: no recovery,
nothing changes. -/
def handleActorFailure (freshAddr : Nat) (t : ActorType)
    (sys : SupervisedSystem) : SupervisedSystem :=
  match t with
  | .network =>
    { supervisor := { sys.supervisor with network_manager := freshAddr }
      dataManagerRefs := updateNetworkDependency freshAddr sys.dataManagerRefs }
  | .data =>
    { supervisor := { sys.supervisor with data_manager := freshAddr }
      dataManagerRefs := { network_manager := sys.supervisor.network_manager } }
  | .user =>
    { supervisor := { sys.supervisor with user_manager := freshAddr }
      dataManagerRefs := sys.dataManagerRefs }
  | .auth => sys

/-! ## Concrete example inputs used by witness theorems -/

/-- A network manager whose pool holds the domain example.com at the
admission ceiling 10. -/
def fullPoolState : NetworkManagerActor :=
  { connection_pool := (fun d => if d = "example.com" then some 10 else none)
    max_connections := 10 }

/-- A plain GET request to a path under example.com. -/
def exampleComRequest : NetworkRequest :=
  { url := "https://example.com/a", method := "GET", headers := []
    body := none, timeout_ms := none, json := none }

/-- A second plain GET request to example.com. -/
def exampleComRequestB : NetworkRequest :=
  { url := "https://example.com/b", method := "GET", headers := []
    body := none, timeout_ms := none, json := none }

/-- An environment whose client build succeeds and whose transport attempt
returns a 200 response with a one-byte body. -/
def okEnv : NetworkEnv :=
  { buildResult := .ok (), sendOutcome := .success 200 [] (.ok [7]) }

/-- An environment whose client build succeeds but whose transport attempt
fails. -/
def transportDownEnv : NetworkEnv :=
  { buildResult := .ok (), sendOutcome := .failure "down" }

/-- A session for the demo user expiring at time 100. -/
def demoSession : AuthSession :=
  { user_id := "user_1", token := "token_user_1_5", expires_at := 100 }

/-- An auth actor holding exactly the demo session. -/
def oneSessionAuth : AuthActor :=
  { active_sessions := fun t => if t = "token_user_1_5" then some demoSession else none }

/-! ## Theorems -/

/-- A handler call whose HTTP-client build succeeds restores every per-domain
counter of an all-zero pool to zero: the admitted request decrements on
completion, and a rejected request puts the counter back. -/
theorem handleNetworkRequest_zero_pool (s : NetworkManagerActor)
    (msg : NetworkRequest) (env : NetworkEnv) (hb : env.buildResult = .ok ())
    (hz : ∀ d, (s.connection_pool d).getD 0 = 0) (d : String) :
    (((s.handleNetworkRequest msg env).state).connection_pool d).getD 0 = 0 := by
  simp only [NetworkManagerActor.handleNetworkRequest, hb, hz]
  norm_num [UINT32_MOD]
  split <;>
    (by_cases hd : d = extract_domain msg.url <;> simp [hd, hz d])

/-- Sequentially processing any batch of requests whose client builds all
succeed keeps an all-zero pool all-zero. -/
theorem processRequests_zero_pool (reqs : List (NetworkRequest × NetworkEnv)) :
    ∀ s : NetworkManagerActor, (∀ p ∈ reqs, p.2.buildResult = .ok ()) →
    (∀ d, (s.connection_pool d).getD 0 = 0) →
    ∀ d, (((processRequests s reqs).connection_pool d)).getD 0 = 0 := by
  induction reqs with
  | nil => intro s _ hz d; exact hz d
  | cons p rest ih =>
    intro s hb hz d
    exact ih _ (fun q hq => hb q (List.mem_cons_of_mem p hq))
      (handleNetworkRequest_zero_pool s p.1 p.2 (hb p (List.mem_cons_self p rest)) hz) d

/-- C1: the claim that the per-domain counter is decremented exactly once on
every exit path of an accepted request fails on the HTTP-client build-failure
path: the handler returns through the question-mark operator before the final
decrement, so the accepted request leaves the counter at 1 instead of 0.
This theorem evaluates the handler at such a failing input from the initial
state. -/
theorem network_build_failure_skips_decrement :
    (((NetworkManagerActor.new.handleNetworkRequest
        { url := "https://api.test.org/v1", method := "GET", headers := [],
          body := none, timeout_ms := none, json := none }
        { buildResult := .error "invalid TLS configuration",
          sendOutcome := .failure "not reached" }).result =
      .error "Network error: Failed to build HTTP client: invalid TLS configuration")) ∧
    ((NetworkManagerActor.new.handleNetworkRequest
        { url := "https://api.test.org/v1", method := "GET", headers := [],
          body := none, timeout_ms := none, json := none }
        { buildResult := .error "invalid TLS configuration",
          sendOutcome := .failure "not reached" }).transportAttempted = false) ∧
    (((NetworkManagerActor.new.handleNetworkRequest
        { url := "https://api.test.org/v1", method := "GET", headers := [],
          body := none, timeout_ms := none, json := none }
        { buildResult := .error "invalid TLS configuration",
          sendOutcome := .failure "not reached" }).state.connection_pool
        "api.test.org").getD 0 = 1) := by
  refine ⟨rfl, rfl, by decide⟩

/-- C2 counterexample: the claim that after all accepted in-flight requests
to a domain complete the domain counter is 0 is false as stated: a single
accepted request whose HTTP-client build fails completes with the counter
still at 1. -/
theorem network_counter_nonzero_after_build_failure :
    (((NetworkManagerActor.new.handleNetworkRequest
        { url := "https://example.net/item", method := "POST", headers := [],
          body := some [1, 2], timeout_ms := some 1000, json := none }
        { buildResult := .error "no resolver", sendOutcome := .failure "not reached" }
      ).state.connection_pool "example.net").getD 0 = 1) ∧
    ¬(((NetworkManagerActor.new.handleNetworkRequest
        { url := "https://example.net/item", method := "POST", headers := [],
          body := some [1, 2], timeout_ms := some 1000, json := none }
        { buildResult := .error "no resolver", sendOutcome := .failure "not reached" }
      ).state.connection_pool "example.net").getD 0 = 0) := by
  refine ⟨by decide, by decide⟩

/-- C2 (amended): with the pool of a domain at the ceiling 10, the next
request to that domain is rejected with the too-many-connections error before
any transport attempt and the counter keeps its prior value 10; and starting
from the initial actor, after any batch of requests in which every HTTP-client
build succeeds is processed to completion, every domain counter is 0 (the
build-failure path leaks the counter, so that path must be excluded). -/
theorem network_admission_control_amended :
    (∀ (s : NetworkManagerActor) (msg : NetworkRequest) (env : NetworkEnv),
      s.max_connections = 10 →
      (s.connection_pool (extract_domain msg.url)).getD 0 = 10 →
      (s.handleNetworkRequest msg env).result =
        .error ("Too many connections to domain: " ++ extract_domain msg.url) ∧
      (s.handleNetworkRequest msg env).transportAttempted = false ∧
      ((s.handleNetworkRequest msg env).state.connection_pool
        (extract_domain msg.url)).getD 0 = 10) ∧
    (∀ reqs : List (NetworkRequest × NetworkEnv),
      (∀ p ∈ reqs, p.2.buildResult = .ok ()) →
      ∀ d, (((processRequests NetworkManagerActor.new reqs).connection_pool d)).getD 0 = 0) := by
  constructor
  · intro s msg env hmax hfull
    simp only [NetworkManagerActor.handleNetworkRequest, hfull, hmax]
    norm_num [UINT32_MOD]
  · intro reqs hb d
    exact processRequests_zero_pool reqs NetworkManagerActor.new hb (fun _ => rfl) d

/-- Witness for the amended C2 theorem at concrete inputs: a pool with the
domain at 10 rejects the next request and keeps the counter, and a two-request
batch with successful builds ends with the counter at 0. -/
theorem network_admission_control_amended_witness :
    (fullPoolState.max_connections = 10) ∧
    ((fullPoolState.connection_pool (extract_domain exampleComRequest.url)).getD 0 = 10) ∧
    ((fullPoolState.handleNetworkRequest exampleComRequest transportDownEnv).result =
      .error ("Too many connections to domain: " ++ extract_domain exampleComRequest.url)) ∧
    ((fullPoolState.handleNetworkRequest exampleComRequest transportDownEnv).state.connection_pool
      (extract_domain exampleComRequest.url)).getD 0 = 10 ∧
    ((processRequests NetworkManagerActor.new
        [(exampleComRequest, okEnv), (exampleComRequestB, transportDownEnv)]).connection_pool
      "example.com").getD 0 = 0 := by
  have h := network_admission_control_amended
  refine ⟨rfl, by decide, (h.1 fullPoolState exampleComRequest transportDownEnv rfl (by decide)).1,
    (h.1 fullPoolState exampleComRequest transportDownEnv rfl (by decide)).2.2, ?_⟩
  exact h.2 [(exampleComRequest, okEnv), (exampleComRequestB, transportDownEnv)]
    (by intro p hp
        simp only [List.mem_cons, List.not_mem_nil, or_false] at hp
        rcases hp with hp | hp <;> simp [hp, okEnv, transportDownEnv])
    "example.com"


/-- C3: a token in the session map verifies to the session's user id exactly
when the current time is strictly below the session's expiry, gives the
expired-token error when the token exists but the time has reached the
expiry, and gives the invalid-token error when the token is absent; a session
whose expiry has passed is gone from the map once a sweep runs one sweep
interval (60s) past its expiry, after which verifying that token gives the
invalid-token error. -/
theorem auth_verify_iff_and_sweep (s : AuthActor) (now : Nat) (token : String) :
    (∀ sess, s.active_sessions token = some sess →
      (now < sess.expires_at →
        AuthActor.handleVerifyToken now token s = .ok sess.user_id) ∧
      (sess.expires_at ≤ now →
        AuthActor.handleVerifyToken now token s = .error "Token expired") ∧
      (∀ sweepTime, sess.expires_at + sweepIntervalSecs ≤ sweepTime →
        (AuthActor.checkExpiredTokens sweepTime s).active_sessions token = none ∧
        ∀ later, AuthActor.handleVerifyToken later token
            (AuthActor.checkExpiredTokens sweepTime s) = .error "Invalid token")) ∧
    (s.active_sessions token = none →
      AuthActor.handleVerifyToken now token s = .error "Invalid token") := by
  constructor
  · intro sess hsess
    refine ⟨fun hlt => ?_, fun hge => ?_, fun sweepTime hsw => ?_⟩
    · simp [AuthActor.handleVerifyToken, hsess, hlt]
    · simp only [AuthActor.handleVerifyToken, hsess, gt_iff_lt]
      rw [if_neg (by omega)]
    · have h60 : sweepIntervalSecs = 60 := rfl
      have hex : sess.expires_at < sweepTime := by omega
      have hrem : (AuthActor.checkExpiredTokens sweepTime s).active_sessions token = none := by
        simp [AuthActor.checkExpiredTokens, hsess, hex]
      exact ⟨hrem, fun later => by simp [AuthActor.handleVerifyToken, hrem]⟩
  · intro hnone
    simp [AuthActor.handleVerifyToken, hnone]

/-- Witness for the C3 theorem on a concrete one-session actor: the token
verifies before expiry, is reported expired at the expiry time, is removed by
a sweep one interval after expiry, and verifies to the invalid-token error
afterwards. -/
theorem auth_verify_iff_and_sweep_witness :
    (oneSessionAuth.active_sessions "token_user_1_5" = some demoSession) ∧
    (50 < demoSession.expires_at) ∧
    (AuthActor.handleVerifyToken 50 "token_user_1_5" oneSessionAuth = .ok demoSession.user_id) ∧
    (demoSession.expires_at ≤ 100) ∧
    (AuthActor.handleVerifyToken 100 "token_user_1_5" oneSessionAuth = .error "Token expired") ∧
    (demoSession.expires_at + sweepIntervalSecs ≤ 160) ∧
    ((AuthActor.checkExpiredTokens 160 oneSessionAuth).active_sessions "token_user_1_5" = none) ∧
    (AuthActor.handleVerifyToken 200 "token_user_1_5"
      (AuthActor.checkExpiredTokens 160 oneSessionAuth) = .error "Invalid token") := by
  have h50 := auth_verify_iff_and_sweep oneSessionAuth 50 "token_user_1_5"
  have h100 := auth_verify_iff_and_sweep oneSessionAuth 100 "token_user_1_5"
  refine ⟨rfl, by decide, (h50.1 demoSession rfl).1 (by decide), by decide,
    (h100.1 demoSession rfl).2.1 (by decide), by decide,
    ((h50.1 demoSession rfl).2.2 160 (by decide)).1,
    ((h50.1 demoSession rfl).2.2 160 (by decide)).2 200⟩

/-- C8: logging in with the demo credentials succeeds with expiry equal to
the login-time clock plus 3600, stores exactly one new session under the
returned token (the map is untouched at every other key), and logging in with
a wrong password fails with the invalid-credentials error leaving the state
unchanged. -/
theorem auth_login_demo (now : Nat) (s : AuthActor) :
    ((AuthActor.handleLogin now { username := "demo", password := "password" } s).1 =
      .ok { user_id := "user_1", token := generate_token "user_1" now, expires_at := now + 3600 }) ∧
    ((AuthActor.handleLogin now { username := "demo", password := "password" } s).2.active_sessions
        (generate_token "user_1" now) =
      some { user_id := "user_1", token := generate_token "user_1" now, expires_at := now + 3600 }) ∧
    (∀ t, t ≠ generate_token "user_1" now →
      (AuthActor.handleLogin now { username := "demo", password := "password" } s).2.active_sessions t =
        s.active_sessions t) ∧
    (AuthActor.handleLogin now { username := "demo", password := "wrong" } s =
      (.error "Invalid username or password", s)) := by
  refine ⟨?_, ?_, ?_, ?_⟩
  · simp [AuthActor.handleLogin]
  · simp [AuthActor.handleLogin]
  · intro t ht
    simp [AuthActor.handleLogin, ht]
  · simp [AuthActor.handleLogin]

/-- Witness for the C8 theorem at clock 0 on the empty auth actor, with the
unrelated key left untouched. -/
theorem auth_login_demo_witness :
    ((AuthActor.handleLogin 0 { username := "demo", password := "password" } AuthActor.new).1 =
      .ok { user_id := "user_1", token := generate_token "user_1" 0, expires_at := 0 + 3600 }) ∧
    ((AuthActor.handleLogin 0 { username := "demo", password := "password" } AuthActor.new).2.active_sessions
        (generate_token "user_1" 0) =
      some { user_id := "user_1", token := generate_token "user_1" 0, expires_at := 0 + 3600 }) ∧
    ("other" ≠ generate_token "user_1" 0) ∧
    ((AuthActor.handleLogin 0 { username := "demo", password := "password" } AuthActor.new).2.active_sessions
        "other" = AuthActor.new.active_sessions "other") ∧
    (AuthActor.handleLogin 0 { username := "demo", password := "wrong" } AuthActor.new =
      (.error "Invalid username or password", AuthActor.new)) := by
  have h := auth_login_demo 0 AuthActor.new
  exact ⟨h.1, h.2.1, by decide, h.2.2.1 "other" (by decide), h.2.2.2⟩

/-- C4: storing a value with a TTL and fetching the key immediately (same
clock reading) returns the value unchanged from the cache; once more than the
TTL has elapsed the cached entry is treated as expired, the fetch falls
through to the stub storage, and the fetch fails with the not-found error
rather than returning the stale cached value. -/
theorem data_store_then_fetch_roundtrip (now later : Nat) (k : String)
    (dat : List Nat) (uid uidF : Option String) (ttl : Nat) (cache : CacheActor) :
    ((DataManagerActor.handleFetchData now { key := k, user_id := uidF }
        (DataManagerActor.handleStoreData now
          { key := k, data := dat, user_id := uid, ttl := some ttl } cache).2).1 = .ok dat) ∧
    (now + ttl < later →
      (DataManagerActor.handleFetchData later { key := k, user_id := uidF }
        (DataManagerActor.handleStoreData now
          { key := k, data := dat, user_id := uid, ttl := some ttl } cache).2).1 =
        .error "Data not found") := by
  constructor
  · simp [DataManagerActor.handleFetchData, DataManagerActor.handleStoreData,
      CacheActor.handleFetchData, CacheActor.handleCacheData,
      StorageActor.handleStoreData, StorageActor.handleFetchData]
  · intro hlate
    simp [DataManagerActor.handleFetchData, DataManagerActor.handleStoreData,
      CacheActor.handleFetchData, CacheActor.handleCacheData,
      StorageActor.handleStoreData, StorageActor.handleFetchData, hlate]

/-- Witness for the C4 theorem: store the bytes 1,2,3 under k1 with TTL 60 at
clock 0 into the empty cache; the immediate fetch returns them and a fetch at
clock 61 fails with the not-found error. -/
theorem data_store_then_fetch_roundtrip_witness :
    ((DataManagerActor.handleFetchData 0 { key := "k1", user_id := none }
        (DataManagerActor.handleStoreData 0
          { key := "k1", data := [1, 2, 3], user_id := none, ttl := some 60 }
          CacheActor.new).2).1 = .ok [1, 2, 3]) ∧
    (0 + 60 < 61) ∧
    ((DataManagerActor.handleFetchData 61 { key := "k1", user_id := none }
        (DataManagerActor.handleStoreData 0
          { key := "k1", data := [1, 2, 3], user_id := none, ttl := some 60 }
          CacheActor.new).2).1 = .error "Data not found") := by
  have h := data_store_then_fetch_roundtrip 0 61 "k1" [1, 2, 3] none none 60 CacheActor.new
  exact ⟨h.1, by decide, h.2 (by decide)⟩

/-- C5: the data manager's fetch sends to the cache first; when the cache
send is a hit it returns the data without consulting storage; only on a cache
non-hit does it send to storage; on a storage hit it writes the value back
into the cache with the fixed TTL 3600 before returning it; and when neither
dependency yields the data the fetch fails with the not-found error. -/
theorem data_manager_read_through_fetch (msg : FetchData)
    (cacheResp storageResp : SendResult (List Nat)) :
    ((dataManagerFetchAlgo msg cacheResp storageResp).2.head? =
      some (DepOp.cacheFetch msg)) ∧
    (∀ d, sendHit cacheResp = some d →
      dataManagerFetchAlgo msg cacheResp storageResp = (.ok d, [.cacheFetch msg])) ∧
    (sendHit cacheResp = none →
      (DepOp.storageFetch msg ∈ (dataManagerFetchAlgo msg cacheResp storageResp).2) ∧
      (∀ d, sendHit storageResp = some d →
        dataManagerFetchAlgo msg cacheResp storageResp =
          (.ok d, [.cacheFetch msg, .storageFetch msg,
            .cacheStore { key := msg.key, data := d, ttl := some 3600 }])) ∧
      (sendHit storageResp = none →
        dataManagerFetchAlgo msg cacheResp storageResp =
          (.error "Data not found", [.cacheFetch msg, .storageFetch msg]))) := by
  refine ⟨?_, ?_, ?_⟩
  · unfold dataManagerFetchAlgo
    cases sendHit cacheResp <;> (try cases sendHit storageResp) <;> rfl
  · intro d hd
    unfold dataManagerFetchAlgo
    rw [hd]
  · intro hc
    unfold dataManagerFetchAlgo
    rw [hc]
    refine ⟨?_, fun d hd => by rw [hd], fun hs => by rw [hs]⟩
    cases sendHit storageResp <;> simp

/-- Witness for the C5 theorem: with a cache miss and a storage hit carrying
the byte 9, the fetch returns 9 and replays it into the cache with TTL 3600;
the hypotheses are discharged on the concrete replies. -/
theorem data_manager_read_through_fetch_witness :
    (sendHit (Except.ok (Except.error "Cache miss") : SendResult (List Nat)) = none) ∧
    (sendHit (Except.ok (Except.ok [9]) : SendResult (List Nat)) = some [9]) ∧
    (dataManagerFetchAlgo { key := "k", user_id := none }
        (Except.ok (Except.error "Cache miss")) (Except.ok (Except.ok [9])) =
      (.ok [9], [.cacheFetch { key := "k", user_id := none },
        .storageFetch { key := "k", user_id := none },
        .cacheStore { key := "k", data := [9], ttl := some 3600 }])) := by
  have h := data_manager_read_through_fetch { key := "k", user_id := none }
    (Except.ok (Except.error "Cache miss")) (Except.ok (Except.ok [9]))
  exact ⟨rfl, rfl, (h.2.2 rfl).2.1 [9] rfl⟩

/-- C6: the data manager's store sends to storage first; a failure of the
storage send at either layer is returned as the store's error with no cache
write; on storage success the entry is written to the cache with the
message's key, data and TTL, and the store's successful result does not
depend on the cache reply. -/
theorem data_manager_store_durable_first (msg : StoreData)
    (cacheResp : SendResult Unit) (e : String) :
    (∀ storageResp : SendResult Unit,
      (dataManagerStoreAlgo msg storageResp cacheResp).2.head? =
        some (DepOp.storageStore msg)) ∧
    (dataManagerStoreAlgo msg (.ok (.error e)) cacheResp =
      (.error e, [.storageStore msg])) ∧
    (dataManagerStoreAlgo msg (.error e) cacheResp =
      (.error e, [.storageStore msg])) ∧
    (dataManagerStoreAlgo msg (.ok (.ok ())) cacheResp =
      (.ok (), [.storageStore msg,
        .cacheStore { key := msg.key, data := msg.data, ttl := msg.ttl }])) := by
  refine ⟨?_, rfl, rfl, rfl⟩
  intro storageResp
  rcases storageResp with e' | r
  · rfl
  · rcases r with e' | u
    · rfl
    · rfl

/-- C10: the stub storage actor rejects every fetch regardless of prior
stores and accepts every store without persisting; hence a data-manager fetch
that succeeds was served by the cache fetch, and a key that was stored
successfully but whose cache entry has expired fetches as not-found. -/
theorem storage_stub_forces_cache_path (now later : Nat) (msg : FetchData)
    (store : StoreData) (cache : CacheActor) (d : List Nat) (k : String)
    (dat : List Nat) (uid uidF : Option String) (ttl : Nat) :
    (StorageActor.handleFetchData msg = .error "Storage implementation not available") ∧
    (StorageActor.handleStoreData store = .ok ()) ∧
    ((DataManagerActor.handleFetchData now msg cache).1 = .ok d →
      (CacheActor.handleFetchData now msg cache).1 = .ok d) ∧
    ((DataManagerActor.handleStoreData now
        { key := k, data := dat, user_id := uid, ttl := some ttl } cache).1 = .ok ()) ∧
    (now + ttl < later →
      (DataManagerActor.handleFetchData later { key := k, user_id := uidF }
        (DataManagerActor.handleStoreData now
          { key := k, data := dat, user_id := uid, ttl := some ttl } cache).2).1 =
        .error "Data not found") := by
  refine ⟨rfl, rfl, ?_, ?_, ?_⟩
  · intro h
    cases hcf : (CacheActor.handleFetchData now msg cache).1 with
    | ok data =>
      have hdm : (DataManagerActor.handleFetchData now msg cache).1 = .ok data := by
        simp [DataManagerActor.handleFetchData, hcf]
      exact hdm.symm.trans h
    | error err =>
      have hdm : (DataManagerActor.handleFetchData now msg cache).1 = .error "Data not found" := by
        simp [DataManagerActor.handleFetchData, hcf, StorageActor.handleFetchData]
      rw [hdm] at h
      exact absurd h (by simp)
  · simp [DataManagerActor.handleStoreData, StorageActor.handleStoreData]
  · intro hlate
    simp [DataManagerActor.handleFetchData, DataManagerActor.handleStoreData,
      CacheActor.handleFetchData, CacheActor.handleCacheData,
      StorageActor.handleStoreData, StorageActor.handleFetchData, hlate]

/-- Witness for the C10 theorem: with a cache holding 4,2 under k2 without
expiry, a data-manager fetch succeeds and indeed came from the cache; a store
of 5 under k3 with TTL 10 succeeds yet fetching k3 at clock 20 is not found. -/
theorem storage_stub_forces_cache_path_witness :
    ((DataManagerActor.handleFetchData 0 { key := "k2", user_id := none }
        { cache := fun c => if c = "k2" then some { data := [4, 2], expires_at := none } else none }).1 =
      .ok [4, 2]) ∧
    ((CacheActor.handleFetchData 0 { key := "k2", user_id := none }
        { cache := fun c => if c = "k2" then some { data := [4, 2], expires_at := none } else none }).1 =
      .ok [4, 2]) ∧
    (0 + 10 < 20) ∧
    ((DataManagerActor.handleFetchData 20 { key := "k3", user_id := none }
        (DataManagerActor.handleStoreData 0
          { key := "k3", data := [5], user_id := none, ttl := some 10 }
          CacheActor.new).2).1 = .error "Data not found") := by
  have h := storage_stub_forces_cache_path 0 20 { key := "k2", user_id := none }
    { key := "k3", data := [5], user_id := none, ttl := some 10 }
    { cache := fun c => if c = "k2" then some { data := [4, 2], expires_at := none } else none }
    [4, 2] "k3" [5] none none 10
  exact ⟨rfl, h.2.2.1 rfl, by decide, h.2.2.2.2 (by decide)⟩

/-- C7: replacing the network actor twice ends with the data manager holding
exactly the address from the second replacement: the dependency-update
message overwrites the held handle, so the second replacement erases the
first and the two replacements settle to the same dependency state as the
second alone. -/
theorem supervisor_network_replace_idempotent (sys : SupervisedSystem)
    (a1 a2 : Nat) (r : DataManagerRefs) :
    ((handleActorFailure a2 .network (handleActorFailure a1 .network sys)).dataManagerRefs.network_manager = a2) ∧
    ((handleActorFailure a2 .network (handleActorFailure a1 .network sys)).dataManagerRefs =
      (handleActorFailure a2 .network sys).dataManagerRefs) ∧
    (updateNetworkDependency a2 (updateNetworkDependency a1 r) =
      updateNetworkDependency a2 r) := by
  exact ⟨rfl, rfl, rfl⟩

/-- C9: the supervisor's recovery for the auth kind replaces nothing and
leaves every supervisor-held field and the data manager's dependency exactly
as they were, while the network, data and user kinds each get the freshly
spawned address installed in the corresponding supervisor field. -/
theorem supervisor_auth_failure_terminal (sys : SupervisedSystem) (fresh : Nat) :
    (handleActorFailure fresh .auth sys = sys) ∧
    ((handleActorFailure fresh .auth sys).supervisor.user_manager = sys.supervisor.user_manager) ∧
    ((handleActorFailure fresh .auth sys).supervisor.data_manager = sys.supervisor.data_manager) ∧
    ((handleActorFailure fresh .auth sys).supervisor.network_manager = sys.supervisor.network_manager) ∧
    ((handleActorFailure fresh .network sys).supervisor.network_manager = fresh) ∧
    ((handleActorFailure fresh .data sys).supervisor.data_manager = fresh) ∧
    ((handleActorFailure fresh .user sys).supervisor.user_manager = fresh) := by
  exact ⟨rfl, rfl, rfl, rfl, rfl, rfl, rfl⟩

end StudyActors
